import Mathlib

/-!
Formal model of the canvas particle system in `src/app.js`.

The JavaScript source is shallowly embedded over an arbitrary linearly
ordered field `α` (instantiated at `ℚ` for concrete evaluation and at `ℝ`
when the exact trigonometric velocity formula matters).  Every call to
`Math.random()` in the source is modelled as an explicitly supplied draw
in the half-open interval `[0, 1)`; the host math library (`Math.PI`,
`Math.cos`, `Math.sin`) is modelled as an explicit `MathLib` record, so
the definitions stay computable wherever the source is.

Mapping to the source:
* `Particle`, `Particle.spawn`  — the `Particle` class constructor (app.js lines 20-40)
* `Particle.update`             — `Particle.update` (lines 42-54)
* `spawnList`, `activeFrame`    — the `heartActive` branch of `animateParticles` (lines 82-100)
* `drainUpdate`, `drainFrame`   — the deactivated branch of `animateParticles` (lines 101-111)
* `resizeCanvas`                — the `heartCenter` computation in `resizeCanvas` (lines 130-133)
* `activateHeart`               — `activateHeart` (lines 137-169)

Drawing calls (`Particle.draw`, the trail-clear `fillRect`) only read the
state and are omitted; the backwards `for`-loops with `splice` are embedded
as `List.map` followed by `List.filter`, which is their net effect since
iteration is back-to-front and `splice` removes exactly the element just
visited.
-/

/-- The two palette colors of the source:
`Color.rose` is the string `rgba(255, 107, 157, 1)` and
`Color.gold` is the string `rgba(255, 215, 0, 1)`. -/
inductive Color : Type
  | rose : Color
  | gold : Color
deriving DecidableEq

/-- The host math library used by the `Particle` constructor:
`Math.PI`, `Math.cos`, `Math.sin`. -/
structure MathLib (α : Type) where
  pi : α
  cos : α → α
  sin : α → α

/-- The real-number instantiation of the host math library. -/
noncomputable def realMathLib : MathLib ℝ :=
  { pi := Real.pi, cos := Real.cos, sin := Real.sin }

/-- A `MathLib ℚ` valuation used to instantiate lemmas at concrete
rational inputs.  At the angle draw `0` it agrees with the real library,
since the angle is then `0` and `Real.cos 0 = 1`, `Real.sin 0 = 0`;
the simulation dynamics never inspect these fields anyway. -/
def ratMathLib : MathLib ℚ :=
  { pi := 0, cos := fun _ => 1, sin := fun _ => 0 }

/-- One particle, with the fields the `Particle` class stores:
`x`, `y`, `size`, `color`, `alpha`, `speed`, `velocity.x`, `velocity.y`,
`gravity`, `drag`. -/
structure Particle (α : Type) where
  x : α
  y : α
  size : α
  color : Color
  alpha : α
  speed : α
  vx : α
  vy : α
  gravity : α
  drag : α

variable {α : Type} [LinearOrderedField α]

/-- The `Particle` constructor (app.js lines 21-40).  `rSize`, `rSpeed` and
`rAngle` are the three `Math.random()` draws it makes, in source order:
`this.size` is `Math.random() * 1.5 + 0.5`, `this.speed` is
`Math.random() * 0.4 + 0.1`, the angle is `Math.random() * Math.PI * 2`,
the velocity components are `Math.cos(angle) * this.speed * 2` and
`Math.sin(angle) * this.speed * 2`, and `this.alpha = 1`,
`this.gravity = 0.003`, `this.drag = 0.99`.  The constructor is total:
every draw yields a particle. -/
def Particle.spawn (M : MathLib α) (x y : α) (color : Color)
    (rSize rSpeed rAngle : α) : Particle α :=
  let size := rSize * 1.5 + 0.5
  let speed := rSpeed * 0.4 + 0.1
  let angle := rAngle * M.pi * 2
  { x := x
    y := y
    size := size
    color := color
    alpha := 1
    speed := speed
    vx := M.cos angle * speed * 2
    vy := M.sin angle * speed * 2
    gravity := 0.003
    drag := 0.99 }

/-- `Particle.update` (app.js lines 42-54):
`velocity.x *= drag; velocity.y *= drag; velocity.y += gravity;
x += velocity.x; y += velocity.y; alpha -= 0.005; size *= 0.995`. -/
def Particle.update (p : Particle α) : Particle α :=
  let vx := p.vx * p.drag
  let vy := p.vy * p.drag + p.gravity
  { p with
    vx := vx
    vy := vy
    x := p.x + vx
    y := p.y + vy
    alpha := p.alpha - 0.005
    size := p.size * 0.995 }

/-- Spec-side micro-operation: multiply the velocity componentwise by the
drag factor. -/
def dragStep (p : Particle α) : Particle α :=
  { p with vx := p.vx * p.drag, vy := p.vy * p.drag }

/-- Spec-side micro-operation: add the gravity to the vertical velocity
component. -/
def gravityStep (p : Particle α) : Particle α :=
  { p with vy := p.vy + p.gravity }

/-- Spec-side micro-operation: add the velocity to the position. -/
def moveStep (p : Particle α) : Particle α :=
  { p with x := p.x + p.vx, y := p.y + p.vy }

/-- Spec-side micro-operation: decrease the opacity by `rate`. -/
def fadeStep (rate : α) (p : Particle α) : Particle α :=
  { p with alpha := p.alpha - rate }

/-- Spec-side micro-operation: multiply the radius by `0.995`. -/
def shrinkStep (p : Particle α) : Particle α :=
  { p with size := p.size * 0.995 }

/-- The ambient palette pick (line 85):
`Math.random() < 0.9` gives rose, else gold. -/
def ambientColor (r : α) : Color :=
  if r < 0.9 then Color.rose else Color.gold

/-- The burst palette pick (line 150):
`Math.random() < 0.7` gives rose, else gold. -/
def burstColor (r : α) : Color :=
  if r < 0.7 then Color.rose else Color.gold

/-- The `Math.random()` draws one frame of `animateParticles` may consume:
`spawnRoll` is the Bernoulli trial of line 84 (`Math.random() < 0.6`),
`colorRoll` the palette pick of line 85, and `sizeRoll`, `speedRoll`,
`angleRoll` the three draws of the `Particle` constructor. -/
structure FrameRand (α : Type) where
  spawnRoll : α
  colorRoll : α
  sizeRoll : α
  speedRoll : α
  angleRoll : α

/-- The conditional ambient spawn of lines 83-88: with `spawnRoll < 0.6`,
exactly one particle is pushed at the heart center, else none. -/
def spawnList (M : MathLib α) (origin : α × α) (fr : FrameRand α) :
    List (Particle α) :=
  if fr.spawnRoll < 0.6 then
    [Particle.spawn M origin.1 origin.2 (ambientColor fr.colorRoll)
      fr.sizeRoll fr.speedRoll fr.angleRoll]
  else []

/-- One frame of the `heartActive` branch (lines 82-100): push the ambient
spawn, then update every particle and remove those with
`alpha <= 0 || size <= 0.1`. -/
def activeFrame (M : MathLib α) (origin : α × α) (fr : FrameRand α)
    (l : List (Particle α)) : List (Particle α) :=
  ((l ++ spawnList M origin fr).map Particle.update).filter
    (fun p => !decide (p.alpha ≤ 0 ∨ p.size ≤ 0.1))

/-- The per-particle effect of the deactivated branch (lines 104-105):
`alpha -= 0.01` followed by `update()`. -/
def drainUpdate (p : Particle α) : Particle α :=
  Particle.update { p with alpha := p.alpha - 0.01 }

/-- One frame of the deactivated branch (lines 101-111): no spawn; each
particle gets `alpha -= 0.01` then `update()`, and is removed when
`alpha <= 0` (the size threshold is not tested in this branch). -/
def drainFrame (l : List (Particle α)) : List (Particle α) :=
  (l.map drainUpdate).filter (fun p => !decide (p.alpha ≤ 0))

/-- One frame of `animateParticles`, selected by the `heartActive` flag. -/
def frame (M : MathLib α) (active : Bool) (origin : α × α)
    (fr : FrameRand α) (l : List (Particle α)) : List (Particle α) :=
  if active then activeFrame M origin fr l else drainFrame l

/-- An on-screen rectangle as returned by `getBoundingClientRect()`. -/
structure Rect (α : Type) where
  left : α
  top : α
  width : α
  height : α

/-- The emission-origin computation of `resizeCanvas` (lines 130-133):
`heartCenter.x = heartRect.left + heartRect.width / 2` and
`heartCenter.y = heartRect.top + heartRect.height / 2`.  The canvas
pixel-sizing part of the handler only touches the drawing surface, not
the simulation state, and is omitted. -/
def resizeCanvas (heartRect : Rect α) : α × α :=
  (heartRect.left + heartRect.width / 2, heartRect.top + heartRect.height / 2)

/-- The simulation state touched by `activateHeart`: the `heartActive`
flag, the `heartCenter` emission origin and the live `particles` list.
Button text and CSS classes are pure presentation and are not modelled. -/
structure SimState (α : Type) where
  heartActive : Bool
  heartCenter : α × α
  particles : List (Particle α)

/-- The `Math.random()` draws of one iteration of the burst loop
(lines 149-152): the palette pick and the three constructor draws. -/
structure BurstRand (α : Type) where
  colorRoll : α
  sizeRoll : α
  speedRoll : α
  angleRoll : α

/-- The 80-particle burst of lines 149-152, pushed at `origin`;
`rolls i` gives the draws of iteration `i`. -/
def burstList (M : MathLib α) (origin : α × α) (rolls : ℕ → BurstRand α) :
    List (Particle α) :=
  (List.range 80).map (fun i =>
    Particle.spawn M origin.1 origin.2 (burstColor (rolls i).colorRoll)
      (rolls i).sizeRoll (rolls i).speedRoll (rolls i).angleRoll)

/-- `activateHeart` (lines 137-169).  On the edge from inactive to active
it sets the flag, recomputes the origin via `resizeCanvas` (`heartRect`
is the rectangle of the anchor element at that moment) and appends the
80-particle burst; on the edge from active to inactive it only clears the
flag (the UI styling it also touches is not simulation state). -/
def activateHeart (M : MathLib α) (heartRect : Rect α)
    (rolls : ℕ → BurstRand α) (s : SimState α) : SimState α :=
  if s.heartActive then
    { s with heartActive := false }
  else
    let center := resizeCanvas heartRect
    { heartActive := true
      heartCenter := center
      particles := s.particles ++ burstList M center rolls }

/-- The particle states the program can actually put into its live
collection: a constructor call with in-range draws, or the image of a
live particle under the per-particle step of either branch.  (Culling
only ever removes particles from the list, so every member of the live
collection is of this shape.) -/
inductive Reachable : Particle α → Prop
  | spawn (M : MathLib α) (x y : α) (c : Color) (r1 r2 r3 : α)
      (h1 : 0 ≤ r1) (h2 : r1 < 1) :
      Reachable (Particle.spawn M x y c r1 r2 r3)
  | active (p : Particle α) (hp : Reachable p) : Reachable (Particle.update p)
  | drain (p : Particle α) (hp : Reachable p) : Reachable (drainUpdate p)

/-- A freshly constructed particle over `ℚ`, all three draws `0`:
`size = 0.5`, `speed = 0.1`, `alpha = 1` (and, since the angle is `0`,
its velocity agrees with the real-library value).  Used as concrete
input for witnesses and counterexamples. -/
def spawnedQ : Particle ℚ :=
  Particle.spawn ratMathLib 0 0 Color.rose 0 0 0

/-- Concrete frame draws over `ℚ` whose Bernoulli trial succeeds
(`spawnRoll = 0 < 0.6`), with in-range constructor draws. -/
def frW : FrameRand ℚ :=
  { spawnRoll := 0, colorRoll := 0, sizeRoll := 0, speedRoll := 0, angleRoll := 0 }

/-- Concrete frame draws over `ℚ` with `spawnRoll = 0.5` and
`colorRoll = 0.3`. -/
def frSpawnW : FrameRand ℚ :=
  { spawnRoll := 0.5, colorRoll := 0.3, sizeRoll := 0, speedRoll := 0, angleRoll := 0 }

/-- The concrete anchor rectangle named by the spec. -/
def rectW : Rect ℚ :=
  { left := 100, top := 50, width := 40, height := 40 }

/-- Concrete burst draws over `ℚ`: every iteration draws `0`. -/
def rollsW : ℕ → BurstRand ℚ :=
  fun _ => { colorRoll := 0, sizeRoll := 0, speedRoll := 0, angleRoll := 0 }

/-- A concrete idle simulation state with an empty live collection. -/
def sIdleW : SimState ℚ :=
  { heartActive := false, heartCenter := (0, 0), particles := [] }

/-- A concrete active simulation state holding one live particle. -/
def sActiveW : SimState ℚ :=
  { heartActive := true, heartCenter := (0, 0), particles := [spawnedQ] }

/-! Helper lemmas shared by the claim theorems. -/

theorem mem_drainFrame (p : Particle α) (l : List (Particle α)) :
    p ∈ drainFrame l ↔ (∃ q ∈ l, drainUpdate q = p) ∧ 0 < p.alpha := by
  rw [drainFrame, List.mem_filter, List.mem_map]
  simp only [Bool.not_eq_eq_eq_not, Bool.not_true, decide_eq_false_iff_not,
    not_le]

theorem mem_activeFrame (M : MathLib α) (origin : α × α) (fr : FrameRand α)
    (p : Particle α) (l : List (Particle α)) :
    p ∈ activeFrame M origin fr l ↔
      (∃ q ∈ l ++ spawnList M origin fr, Particle.update q = p) ∧
        0 < p.alpha ∧ 0.1 < p.size := by
  rw [activeFrame, List.mem_filter, List.mem_map]
  simp only [Bool.not_eq_eq_eq_not, Bool.not_true, decide_eq_false_iff_not,
    not_or, not_le]

theorem drainUpdate_alpha (p : Particle α) :
    (drainUpdate p).alpha = p.alpha - 0.015 := by
  show p.alpha - 0.01 - 0.005 = p.alpha - 0.015
  ring_nf

/-- Every reachable particle is some spawn aged by `k` frames: its size is
`s0 * 0.995 ^ k` for an initial size `s0` of at least `0.5`, while its
opacity has lost at least `0.005` per frame from the initial `1`. -/
theorem reachable_decomposition (p : Particle α) (hp : Reachable p) :
    ∃ (k : ℕ) (s0 : α), 0.5 ≤ s0 ∧ p.size = s0 * 0.995 ^ k ∧
      p.alpha ≤ 1 - 0.005 * k := by
  induction hp with
  | spawn M x y c r1 r2 r3 h1 h2 =>
    refine ⟨0, r1 * 1.5 + 0.5, by linarith, ?_, ?_⟩
    · norm_num [Particle.spawn]
    · norm_num [Particle.spawn]
  | active q hq ih =>
    obtain ⟨k, s0, hs, hsize, halpha⟩ := ih
    refine ⟨k + 1, s0, hs, ?_, ?_⟩
    · show q.size * 0.995 = _
      rw [hsize]; ring
    · show q.alpha - 0.005 ≤ _
      push_cast
      linarith
  | drain q hq ih =>
    obtain ⟨k, s0, hs, hsize, halpha⟩ := ih
    refine ⟨k + 1, s0, hs, ?_, ?_⟩
    · show q.size * 0.995 = _
      rw [hsize]; ring
    · rw [drainUpdate_alpha]
      push_cast
      linarith

/-- A reachable particle that is still visible has been alive for at most
199 frames, so its size is at least `0.5 * 0.995 ^ 199 > 0.1`: the size
cull threshold is unreachable for a live particle. -/
theorem reachable_size_gt (p : Particle α) (hp : Reachable p)
    (ha : 0 < p.alpha) : 0.1 < p.size := by
  obtain ⟨k, s0, hs, hsize, halpha⟩ := reachable_decomposition p hp
  have hk : (k : α) < 200 := by nlinarith
  have hk2 : k ≤ 199 := by
    have : k < 200 := by exact_mod_cast hk
    omega
  have hpow : (0.995 : α) ^ 199 ≤ (0.995 : α) ^ k :=
    pow_le_pow_of_le_one (by norm_num) (by norm_num) hk2
  have hnum : (0.2 : α) < (0.995 : α) ^ 199 := by norm_num
  have hx : (0.2 : α) < (0.995 : α) ^ k := lt_of_lt_of_le hnum hpow
  rw [hsize]
  nlinarith

/-! The claim theorems. -/

/-- C1: immediately after one frame of the animation loop, every particle
still in the live collection satisfies `alpha > 0` and `size > 0.1`, in
both the active and the drain branch (and every particle in the output
is again reachable, so the hypothesis is maintained from frame to frame).
In the active branch both bounds are enforced by the cull of line 97.
The drain branch only tests `alpha <= 0` (line 107), but a reachable
particle that is still visible has size above `0.1` by
`reachable_size_gt`, so the missing size test never matters. -/
theorem step_cull_invariant (M : MathLib α) (origin : α × α)
    (fr : FrameRand α) (l : List (Particle α)) (hl : ∀ p ∈ l, Reachable p)
    (h1 : 0 ≤ fr.sizeRoll) (h2 : fr.sizeRoll < 1) :
    (∀ p ∈ activeFrame M origin fr l,
      Reachable p ∧ 0 < p.alpha ∧ 0.1 < p.size) ∧
    (∀ p ∈ drainFrame l, Reachable p ∧ 0 < p.alpha ∧ 0.1 < p.size) := by
  constructor
  · intro p hp
    rw [mem_activeFrame] at hp
    obtain ⟨⟨q, hq, hqp⟩, hpa, hps⟩ := hp
    refine ⟨?_, hpa, hps⟩
    rw [← hqp]
    refine Reachable.active q ?_
    rcases List.mem_append.mp hq with h | h
    · exact hl q h
    · rw [spawnList] at h
      split at h
      · rw [List.mem_singleton] at h
        subst h
        exact Reachable.spawn M origin.1 origin.2 _ _ _ _ h1 h2
      · simp at h
  · intro p hp
    rw [mem_drainFrame] at hp
    obtain ⟨⟨q, hq, hqp⟩, hpa⟩ := hp
    have hr : Reachable p := by
      rw [← hqp]
      exact Reachable.drain q (hl q hq)
    exact ⟨hr, hpa, reachable_size_gt p hr hpa⟩

/-- Witness for C1 at a singleton collection holding a freshly spawned
particle and a frame whose spawn trial fires. -/
theorem step_cull_invariant_witness :
    (∀ p ∈ [spawnedQ], Reachable p) ∧
    (∀ p ∈ activeFrame ratMathLib ((0 : ℚ), (0 : ℚ)) frW [spawnedQ],
      Reachable p ∧ 0 < p.alpha ∧ 0.1 < p.size) ∧
    (∀ p ∈ drainFrame [spawnedQ],
      Reachable p ∧ 0 < p.alpha ∧ 0.1 < p.size) := by
  have hl : ∀ p ∈ [spawnedQ], Reachable p := by
    intro p hp
    rw [List.mem_singleton] at hp
    subst hp
    exact Reachable.spawn ratMathLib 0 0 Color.rose 0 0 0
      (by norm_num) (by norm_num)
  have h := step_cull_invariant ratMathLib ((0 : ℚ), (0 : ℚ)) frW [spawnedQ]
    hl (by norm_num [frW]) (by norm_num [frW])
  exact ⟨hl, h.1, h.2⟩

/-- Counterexample for C2 as stated: a freshly spawned particle has
`alpha = 1`; after one drain frame its opacity is `0.985`, a decrease of
`0.015`, not the claimed `0.01` (the branch subtracts `0.01` and then
`update()` subtracts another `0.005`). -/
theorem drain_fade_counterexample :
    (drainFrame [spawnedQ]).map Particle.alpha = [0.985] ∧
      (0.985 : ℚ) ≠ 1 - 0.01 := by
  constructor
  · simp only [drainFrame, drainUpdate, Particle.update, spawnedQ,
      Particle.spawn, List.map_cons, List.map_nil]
    norm_num
  · norm_num

/-- C2 amended: in draining mode each step decreases every live particle
opacity by exactly `0.015` per frame (the explicit `0.01` decrement of
line 104 plus the `0.005` subtracted inside `update()`), versus `0.005`
per frame in ambient mode. -/
theorem fade_per_mode (p : Particle α) :
    (drainUpdate p).alpha = p.alpha - 0.015 ∧
      (Particle.update p).alpha = p.alpha - 0.005 :=
  ⟨drainUpdate_alpha p, rfl⟩

/-- C3: the per-particle step is exactly the ordered composition of the
five spec operations — drag, then gravity, then move, then fade, then
shrink — with fade rate `0.005` in ambient mode and `0.015` in drain
mode (in the source the extra drain decrement of `0.01` happens before
`update()`, but no other operation reads the opacity, so the effect is
the stated order). -/
theorem update_is_ordered_composition (p : Particle α) :
    Particle.update p =
      shrinkStep (fadeStep 0.005 (moveStep (gravityStep (dragStep p)))) ∧
    drainUpdate p =
      shrinkStep (fadeStep 0.015 (moveStep (gravityStep (dragStep p)))) := by
  refine ⟨rfl, ?_⟩
  show Particle.update { p with alpha := p.alpha - 0.01 } = _
  simp only [Particle.update, shrinkStep, fadeStep, moveStep, gravityStep,
    dragStep]
  congr 1
  ring_nf

/-- Counterexample for C4 as stated: a drain step does not strictly
decrease the live count — a freshly spawned particle (opacity `1`)
survives the step, so a singleton collection stays a singleton. -/
theorem drain_count_not_strict :
    ¬ (drainFrame [spawnedQ]).length < [spawnedQ].length := by
  simp only [drainFrame, drainUpdate, Particle.update, spawnedQ,
    Particle.spawn, List.map_cons, List.map_nil]
  norm_num

/-- C4 amended: with the activation flag off, the live count never
increases, an empty collection stays empty, and once `0.015 * n` reaches
every live opacity, `n` drain frames empty the collection — so repeated
steps drive the count to `0`, where it remains. -/
theorem drain_collection_empties (l : List (Particle α)) (n : ℕ) :
    (drainFrame l).length ≤ l.length ∧
    drainFrame ([] : List (Particle α)) = [] ∧
    (1 ≤ n → (∀ p ∈ l, p.alpha ≤ 0.015 * n) → drainFrame^[n] l = []) := by
  refine ⟨?_, rfl, ?_⟩
  · rw [drainFrame]
    calc (List.filter (fun p => !decide (p.alpha ≤ 0))
            (l.map drainUpdate)).length
        ≤ (l.map drainUpdate).length := List.length_filter_le _ _
      _ = l.length := List.length_map _ _
  · intro hn h
    have key : ∀ m : ℕ, ∀ p ∈ drainFrame^[m + 1] l,
        ∃ q ∈ l, p.alpha = q.alpha - 0.015 * (m + 1) ∧ 0 < p.alpha := by
      intro m
      induction m with
      | zero =>
        intro p hp
        rw [Function.iterate_one, mem_drainFrame] at hp
        obtain ⟨⟨q, hq, hqp⟩, hpos⟩ := hp
        exact ⟨q, hq, by rw [← hqp, drainUpdate_alpha]; push_cast; ring, hpos⟩
      | succ k ih =>
        intro p hp
        rw [Function.iterate_succ_apply', mem_drainFrame] at hp
        obtain ⟨⟨q, hq, hqp⟩, hpos⟩ := hp
        obtain ⟨r, hr, hra, _⟩ := ih q hq
        refine ⟨r, hr, ?_, hpos⟩
        rw [← hqp, drainUpdate_alpha, hra]
        push_cast
        ring
    obtain ⟨m, rfl⟩ : ∃ m, n = m + 1 :=
      ⟨n - 1, (Nat.succ_pred_eq_of_pos hn).symm⟩
    rw [List.eq_nil_iff_forall_not_mem]
    intro p hp
    obtain ⟨q, hq, hpa, hpos⟩ := key m p hp
    have hbound := h q hq
    rw [hpa] at hpos
    push_cast at hbound
    linarith

/-- Witness for C4 at a singleton collection holding a freshly spawned
particle: `67` drain frames (`0.015 * 67 = 1.005 ≥ 1`) empty it. -/
theorem drain_collection_empties_witness :
    1 ≤ 67 ∧ (∀ p ∈ [spawnedQ], p.alpha ≤ (0.015 : ℚ) * (67 : ℕ)) ∧
      drainFrame^[67] [spawnedQ] = [] := by
  have hb : ∀ p ∈ [spawnedQ], p.alpha ≤ (0.015 : ℚ) * (67 : ℕ) := by
    intro p hp
    rw [List.mem_singleton] at hp
    subst hp
    norm_num [spawnedQ, Particle.spawn]
  exact ⟨by norm_num, hb,
    (drain_collection_empties [spawnedQ] 67).2.2 (by norm_num) hb⟩

/-- C5: toggling the activation flag from false to true immediately
appends exactly 80 new particles, all positioned at the current emission
origin (the anchor center just recomputed by `resizeCanvas`) with full
opacity, the particle of burst iteration `i` colored by the 70/30
weighted pick on that iteration's draw; the pre-existing particles are
the unchanged prefix of the new collection. -/
theorem activation_burst_spec (M : MathLib α) (heartRect : Rect α)
    (rolls : ℕ → BurstRand α) (s : SimState α) (h : s.heartActive = false) :
    (activateHeart M heartRect rolls s).heartActive = true ∧
      (activateHeart M heartRect rolls s).heartCenter = resizeCanvas heartRect ∧
      (activateHeart M heartRect rolls s).particles =
        s.particles ++ burstList M (resizeCanvas heartRect) rolls ∧
      (burstList M (resizeCanvas heartRect) rolls).length = 80 ∧
      (∀ p ∈ burstList M (resizeCanvas heartRect) rolls,
        p.x = (resizeCanvas heartRect).1 ∧ p.y = (resizeCanvas heartRect).2 ∧
          p.alpha = 1) ∧
      (∀ i : ℕ, i < 80 →
        ((burstList M (resizeCanvas heartRect) rolls)[i]?).map Particle.color =
          some (if (rolls i).colorRoll < 0.7 then Color.rose else Color.gold)) := by
  have hact : activateHeart M heartRect rolls s =
      { heartActive := true
        heartCenter := resizeCanvas heartRect
        particles := s.particles ++ burstList M (resizeCanvas heartRect) rolls } := by
    rw [activateHeart, h]
    simp
  refine ⟨by rw [hact], by rw [hact], by rw [hact], ?_, ?_, ?_⟩
  · simp [burstList]
  · intro p hp
    simp only [burstList, List.mem_map, List.mem_range] at hp
    obtain ⟨i, _, rfl⟩ := hp
    exact ⟨rfl, rfl, rfl⟩
  · intro i hi
    simp [burstList, List.getElem?_map, hi, burstColor, Particle.spawn]

/-- Witness for C5 at a concrete idle state with an empty collection and
the anchor rectangle named by the spec: the toggle yields exactly 80
live particles. -/
theorem activation_burst_spec_witness :
    sIdleW.heartActive = false ∧
      ((activateHeart ratMathLib rectW rollsW sIdleW).particles).length = 80 := by
  have h := activation_burst_spec ratMathLib rectW rollsW sIdleW rfl
  refine ⟨rfl, ?_⟩
  rw [h.2.2.1]
  simpa [sIdleW] using h.2.2.2.1

/-- C6: the constructor always succeeds and yields a particle positioned
at the given origin, with `size = rSize * 1.5 + 0.5` (hence uniformly in
`[0.5, 2.0]` as the affine image of the uniform draw),
`speed = rSpeed * 0.4 + 0.1` (hence uniformly in `[0.1, 0.5]`), velocity
`(cos θ * speed * 2, sin θ * speed * 2)` for a direction `θ` uniformly in
`[0, 2π)`, opacity exactly `1`, gravity exactly `0.003` and drag exactly
`0.99`. -/
theorem spawn_spec (ox oy : ℝ) (c : Color) (r1 r2 r3 : ℝ)
    (h1 : 0 ≤ r1) (h1' : r1 < 1) (h2 : 0 ≤ r2) (h2' : r2 < 1)
    (h3 : 0 ≤ r3) (h3' : r3 < 1) :
    (Particle.spawn realMathLib ox oy c r1 r2 r3).x = ox ∧
    (Particle.spawn realMathLib ox oy c r1 r2 r3).y = oy ∧
    (Particle.spawn realMathLib ox oy c r1 r2 r3).size = r1 * 1.5 + 0.5 ∧
    (0.5 ≤ (Particle.spawn realMathLib ox oy c r1 r2 r3).size ∧
      (Particle.spawn realMathLib ox oy c r1 r2 r3).size ≤ 2) ∧
    (Particle.spawn realMathLib ox oy c r1 r2 r3).speed = r2 * 0.4 + 0.1 ∧
    (0.1 ≤ (Particle.spawn realMathLib ox oy c r1 r2 r3).speed ∧
      (Particle.spawn realMathLib ox oy c r1 r2 r3).speed ≤ 0.5) ∧
    (∃ θ : ℝ, 0 ≤ θ ∧ θ < 2 * Real.pi ∧
      (Particle.spawn realMathLib ox oy c r1 r2 r3).vx =
        Real.cos θ * (Particle.spawn realMathLib ox oy c r1 r2 r3).speed * 2 ∧
      (Particle.spawn realMathLib ox oy c r1 r2 r3).vy =
        Real.sin θ * (Particle.spawn realMathLib ox oy c r1 r2 r3).speed * 2) ∧
    (Particle.spawn realMathLib ox oy c r1 r2 r3).alpha = 1 ∧
    (Particle.spawn realMathLib ox oy c r1 r2 r3).gravity = 0.003 ∧
    (Particle.spawn realMathLib ox oy c r1 r2 r3).drag = 0.99 ∧
    (Particle.spawn realMathLib ox oy c r1 r2 r3).color = c := by
  refine ⟨rfl, rfl, rfl,
    ⟨by norm_num [Particle.spawn]; linarith,
      by norm_num [Particle.spawn]; nlinarith⟩,
    rfl,
    ⟨by norm_num [Particle.spawn]; linarith,
      by norm_num [Particle.spawn]; nlinarith⟩,
    ⟨r3 * Real.pi * 2, ?_, ?_, rfl, rfl⟩, rfl, rfl, rfl, rfl⟩
  · positivity
  · have hpi := Real.pi_pos
    nlinarith

/-- Witness for C6 at the origin with all three draws `0`. -/
theorem spawn_spec_witness :
    (Particle.spawn realMathLib 0 0 Color.rose 0 0 0).alpha = 1 ∧
      (Particle.spawn realMathLib 0 0 Color.rose 0 0 0).size = 0 * 1.5 + 0.5 := by
  have h := spawn_spec 0 0 Color.rose 0 0 0 (by norm_num) (by norm_num)
    (by norm_num) (by norm_num) (by norm_num) (by norm_num)
  exact ⟨h.2.2.2.2.2.2.2.1, h.2.2.1⟩

/-- C7: while active, a frame spawns exactly one particle at the current
origin when the Bernoulli draw is below `0.6` — its color the 90/10
weighted pick on the color draw — and none otherwise; while inactive, a
frame spawns nothing: every particle in a drain frame output is the
image of a pre-existing one. -/
theorem emission_policy (M : MathLib α) (origin : α × α) (fr : FrameRand α)
    (l : List (Particle α)) :
    (fr.spawnRoll < 0.6 →
      spawnList M origin fr =
        [Particle.spawn M origin.1 origin.2
          (if fr.colorRoll < 0.9 then Color.rose else Color.gold)
          fr.sizeRoll fr.speedRoll fr.angleRoll]) ∧
    (¬ fr.spawnRoll < 0.6 → spawnList M origin fr = []) ∧
    (∀ p ∈ drainFrame l, ∃ q ∈ l, drainUpdate q = p) := by
  refine ⟨fun h => ?_, fun h => ?_, fun p hp => ?_⟩
  · rw [spawnList, if_pos h, ambientColor]
  · rw [spawnList, if_neg h]
  · rw [drainFrame, List.mem_filter, List.mem_map] at hp
    exact hp.1

/-- Witness for C7 at concrete draws with `spawnRoll = 0.5 < 0.6`. -/
theorem emission_policy_witness :
    frSpawnW.spawnRoll < (0.6 : ℚ) ∧
      spawnList ratMathLib ((0 : ℚ), (0 : ℚ)) frSpawnW =
        [Particle.spawn ratMathLib 0 0
          (if frSpawnW.colorRoll < 0.9 then Color.rose else Color.gold)
          frSpawnW.sizeRoll frSpawnW.speedRoll frSpawnW.angleRoll] := by
  have hroll : frSpawnW.spawnRoll < (0.6 : ℚ) := by norm_num [frSpawnW]
  exact ⟨hroll,
    (emission_policy ratMathLib ((0 : ℚ), (0 : ℚ)) frSpawnW []).1 hroll⟩

/-- C8: `resizeCanvas` sets the emission origin to the center of the
anchor rectangle, `(left + width / 2, top + height / 2)`; in particular
the rectangle with left `100`, top `50`, width `40`, height `40` yields
`(120, 70)`. -/
theorem resize_sets_heart_center (r : Rect ℚ) :
    resizeCanvas ({ left := 100, top := 50, width := 40, height := 40 } : Rect ℚ) =
        (120, 70) ∧
      resizeCanvas r = (r.left + r.width / 2, r.top + r.height / 2) := by
  constructor
  · rw [resizeCanvas]
    norm_num
  · rfl

/-- C9: from creation on, radius and opacity never increase: a freshly
constructed particle has nonnegative size, and the per-particle step of
either branch leaves opacity and size equal or smaller while keeping the
size nonnegative (so the hypothesis is maintained until removal). -/
theorem radius_opacity_nonincreasing (M : MathLib α) (x y r1 r2 r3 : α)
    (c : Color) (p : Particle α) (hs : 0 ≤ p.size) (hr : 0 ≤ r1) :
    0 ≤ (Particle.spawn M x y c r1 r2 r3).size ∧
    ((Particle.update p).alpha ≤ p.alpha ∧ (Particle.update p).size ≤ p.size ∧
      0 ≤ (Particle.update p).size) ∧
    ((drainUpdate p).alpha ≤ p.alpha ∧ (drainUpdate p).size ≤ p.size ∧
      0 ≤ (drainUpdate p).size) := by
  have hu : (Particle.update p).size = p.size * 0.995 := rfl
  have hd : (drainUpdate p).size = p.size * 0.995 := rfl
  have ha : (Particle.update p).alpha = p.alpha - 0.005 := rfl
  have hda := drainUpdate_alpha p
  refine ⟨?_, ⟨?_, ?_, ?_⟩, ⟨?_, ?_, ?_⟩⟩
  · show (0 : α) ≤ r1 * 1.5 + 0.5
    linarith
  · rw [ha]; linarith
  · rw [hu]; nlinarith
  · rw [hu]; positivity
  · rw [hda]; linarith
  · rw [hd]; nlinarith
  · rw [hd]; positivity

/-- Witness for C9 at a freshly spawned particle (size `0.5 ≥ 0`) and
draw `0`. -/
theorem radius_opacity_nonincreasing_witness :
    (0 : ℚ) ≤ spawnedQ.size ∧ (0 : ℚ) ≤ 0 ∧
      (Particle.update spawnedQ).alpha ≤ spawnedQ.alpha ∧
      (Particle.update spawnedQ).size ≤ spawnedQ.size ∧
      (drainUpdate spawnedQ).alpha ≤ spawnedQ.alpha ∧
      (drainUpdate spawnedQ).size ≤ spawnedQ.size := by
  have hs : (0 : ℚ) ≤ spawnedQ.size := by
    norm_num [spawnedQ, Particle.spawn]
  have h := radius_opacity_nonincreasing ratMathLib 0 0 0 0 0 Color.rose
    spawnedQ hs (le_refl 0)
  exact ⟨hs, le_refl 0, h.2.1.1, h.2.1.2.1, h.2.2.1, h.2.2.2.1⟩

/-- C10: toggling the activation flag from true to false leaves the live
collection and the emission origin completely unchanged — only the flag
flips — so draining begins only at the next frame. -/
theorem deactivation_preserves_particles (M : MathLib α)
    (heartRect : Rect α) (rolls : ℕ → BurstRand α) (s : SimState α)
    (h : s.heartActive = true) :
    (activateHeart M heartRect rolls s).particles = s.particles ∧
      (activateHeart M heartRect rolls s).heartCenter = s.heartCenter ∧
      (activateHeart M heartRect rolls s).heartActive = false := by
  rw [activateHeart, h]
  simp

/-- Witness for C10 at a concrete active state holding one particle. -/
theorem deactivation_preserves_particles_witness :
    sActiveW.heartActive = true ∧
      (activateHeart ratMathLib rectW rollsW sActiveW).particles =
        sActiveW.particles :=
  ⟨rfl,
    (deactivation_preserves_particles ratMathLib rectW rollsW sActiveW rfl).1⟩
